import Mathlib

/-!
Verification of the paired-row extraction pipeline of the news-listing
scraper (src/yc-news-list/ycn.py) against its specification.

The embedding models the document elements the scraper consumes (bs4 Tag
objects) by the two observations the code makes of them — concatenated
text and the optional href attribute — together with the functions
`get_html_content`, `parse_news_data`, `print_news_items`,
`save_news_to_csv`, `get_url_from_news_element` and
`get_title_from_news_element` translated from the source.
-/

/-- A parsed document element (a bs4 `Tag`) as the scraper observes it:
`text` models `tag.text` (the concatenated descendant strings) and `href`
models the optional href attribute, `some u` when the element carries
`href=u` and `none` when the attribute is absent. -/
structure Tag where
  text : String
  href : Option String
deriving DecidableEq, Repr

/-- Python truthiness of a bs4 `Tag`. `Tag` defines a dunder bool method
that returns `True` unconditionally (a tag is non-None, so it is always
true); consequently `filter(None, tags)` keeps every tag. -/
def Tag.truthy (_ : Tag) : Bool := true

/-- The stride-3 pairing loop inside `parse_news_data` (ycn.py lines
60-65): `for i in range(0, len(rows), 3)` appends `rows[i]` to
`header_rows` and `rows[i+1]` to `meta_rows` whenever `i + 1 < len(rows)`.
Each step consumes a window of three rows (header, meta, spacer) and keeps
the first two; a final window of size two still yields a pair, while a
final window of size one is discarded. -/
def pairRows : List Tag → List Tag × List Tag
  | [] => ([], [])
  | [_] => ([], [])
  | [h, m] => ([h], [m])
  | h :: m :: _ :: rest => (h :: (pairRows rest).1, m :: (pairRows rest).2)

/-- `parse_news_data` (ycn.py lines 32-71). The argument models what the
function sees after `soup.find("table")` and `news_table.find_all("tr")`:
`none` when no table element is found (the function prints a message and
returns a pair of empty lists), `some rows` when a table is found and
`rows` is its list of tr elements (the empty list when the table has no
rows, in which case the function again returns empty lists). Otherwise the
stride-3 loop builds `header_rows` and `meta_rows` and both lists are
passed through `filter(None, ...)`, embedded with bs4 Tag truthiness. -/
def parse_news_data (newsTable : Option (List Tag)) : List Tag × List Tag :=
  match newsTable with
  | none => ([], [])
  | some rows =>
    if rows.isEmpty then ([], [])
    else
      ((pairRows rows).1.filter Tag.truthy, (pairRows rows).2.filter Tag.truthy)

/-- The (header, meta) record pairs the sinks actually form from the two
lists returned by `parse_news_data`: both `print_news_items` (ycn.py line
82) and `save_news_to_csv` (ycn.py line 97) iterate
`zip(header_rows, meta_rows)`. -/
def newsRecords (newsTable : Option (List Tag)) : List (Tag × Tag) :=
  (parse_news_data newsTable).1.zip (parse_news_data newsTable).2

/-- An HTTP response as `get_html_content` observes it through
`requests.get`: the integer status code and the body text. -/
structure Response where
  status_code : Nat
  text : String
deriving DecidableEq, Repr

/-- `get_html_content` (ycn.py lines 15-29): returns the body text when
`response.status_code == 200`; for every other status code it prints a
failure message and returns None (it raises nothing). -/
def get_html_content (response : Response) : Option String :=
  if response.status_code = 200 then some response.text else none

/-- `get_url_from_news_element` (ycn.py lines 102-104): the subscript
`news_element["href"]` returns the attribute value when the attribute is
present and raises KeyError when it is absent. -/
def get_url_from_news_element (news_element : Tag) : Except String String :=
  match news_element.href with
  | some u => Except.ok u
  | none => Except.error "KeyError: href"

/-- Python `str.strip()` with no argument: remove leading and trailing
whitespace characters, translated over the character list of the
string. -/
def pyStrip (s : String) : String :=
  String.mk (((s.data.dropWhile Char.isWhitespace).reverse.dropWhile Char.isWhitespace).reverse)

/-- `get_title_from_news_element` (ycn.py lines 107-109):
`news_element.text.strip()`. -/
def get_title_from_news_element (news_element : Tag) : String :=
  pyStrip news_element.text

/-- `print_news_items` (ycn.py lines 74-83), as the list of strings passed
to `print` in order: the banner, then one string per zipped
(header, meta) pair, each built by the f-string as a leading newline,
the header, tab hyphen tab, the meta, and a trailing newline. -/
def print_news_items (header_rows meta_rows : List String) : List String :=
  "Printing news items..." ::
    (header_rows.zip meta_rows).map (fun p => "\n" ++ p.1 ++ "\t-\t" ++ p.2 ++ "\n")

/-- `save_news_to_csv` (ycn.py lines 86-99), as the list of rows handed to
`csv.writer.writerow` in order: the column-name row, then one two-field
row per zipped (header, meta) pair. CSV quoting, line termination and the
file writing itself belong to the csv module and are not modelled. -/
def save_news_to_csv (header_rows meta_rows : List String) : List (List String) :=
  ["header", "meta"] :: (header_rows.zip meta_rows).map (fun p => [p.1, p.2])

/-- The header list built by the pairing loop has one element per window
that still contains a meta row: `(len(rows) + 1) / 3` of them. -/
theorem pairRows_fst_length : ∀ rows : List Tag,
    (pairRows rows).1.length = (rows.length + 1) / 3
  | [] => by simp [pairRows]
  | [_] => by simp [pairRows]
  | [_, _] => by simp [pairRows]
  | _ :: _ :: _ :: rest => by
      have ih := pairRows_fst_length rest
      simp only [pairRows, List.length_cons, ih]
      omega

/-- The meta list built by the pairing loop has the same length as the
header list. -/
theorem pairRows_snd_length : ∀ rows : List Tag,
    (pairRows rows).2.length = (rows.length + 1) / 3
  | [] => by simp [pairRows]
  | [_] => by simp [pairRows]
  | [_, _] => by simp [pairRows]
  | _ :: _ :: _ :: rest => by
      have ih := pairRows_snd_length rest
      simp only [pairRows, List.length_cons, ih]
      omega

/-- C7: extraction on an absent row sequence (no table found) and on an
empty row sequence both return the empty record sequence; the function is
total, so no error is raised. -/
theorem c7_empty_input_yields_empty :
    newsRecords none = [] ∧ newsRecords (some []) = [] :=
  ⟨rfl, rfl⟩

/-- C4 counterexample: the document-parse step does not fail when no table
is present — `parse_news_data` returns the ordinary value `([], [])`,
which is exactly the value it also returns for a present table with zero
rows, so the two outcomes are not distinguished. -/
theorem c4_counterexample_no_parse_error :
    parse_news_data none = ([], []) ∧ parse_news_data none = parse_news_data (some []) :=
  ⟨rfl, rfl⟩

/-- C4 (amended): when no row-bearing table structure is found the parse
step prints a diagnostic and returns a pair of empty lists rather than
raising a ParseError, and a present table with zero rows returns the same
pair of empty lists; the two cases are not distinguished in the returned
value. -/
theorem c4_no_table_returns_empty :
    parse_news_data none = ([], [])
    ∧ ∀ rows : List Tag, rows.isEmpty = true → parse_news_data (some rows) = ([], []) := by
  refine ⟨rfl, ?_⟩
  intro rows h
  simp [parse_news_data, h]

/-- C4 witness: the amended statement applied to the concrete empty row
list. -/
theorem c4_witness : parse_news_data (some ([] : List Tag)) = ([], []) :=
  c4_no_table_returns_empty.2 [] (by decide)

/-- C5 counterexample: on status 404 (non-success) the fetch returns the
ordinary value None instead of failing with a FetchError, and on status
204 (a success transport status) it also returns None instead of the raw
document text. -/
theorem c5_counterexample_no_fetch_error :
    get_html_content (Response.mk 404 "not found") = none
    ∧ get_html_content (Response.mk 204 "hello") = none :=
  ⟨rfl, rfl⟩

/-- C5 (amended): `get_html_content` returns the raw document text exactly
when the status code is 200; for every other status code, including other
success statuses, it prints a message and returns None, raising nothing. -/
theorem c5_text_iff_status_200 (r : Response) (s : String) :
    get_html_content r = some s ↔ r.status_code = 200 ∧ s = r.text := by
  unfold get_html_content
  by_cases h : r.status_code = 200 <;> simp [h, eq_comm]

/-- C6 counterexample: on a header element that exposes no link target,
`get_url_from_news_element` raises KeyError (subscripting a missing
attribute) rather than leaving the url absent without error. -/
theorem c6_counterexample_keyerror :
    get_url_from_news_element (Tag.mk "Example" none) = Except.error "KeyError: href" :=
  rfl

/-- C6 (amended): `get_url_from_news_element` returns the link target
exactly when the element exposes one, and raises KeyError exactly when the
element exposes no link target (the url is never silently left absent). -/
theorem c6_url_or_keyerror (e : Tag) :
    (∀ u, get_url_from_news_element e = Except.ok u ↔ e.href = some u)
    ∧ (get_url_from_news_element e = Except.error "KeyError: href" ↔ e.href = none) := by
  unfold get_url_from_news_element
  cases h : e.href <;> simp

/-- C8 counterexample: at header list `["a"]` and meta list `["b"]` the
console sink prints the banner and then the string with a leading and
trailing newline around the core; no printed string equals the bare
tab-separated form the claim states. -/
theorem c8_counterexample_console_format :
    print_news_items ["a"] ["b"] = ["Printing news items...", "\na\t-\tb\n"]
    ∧ "\na\t-\tb\n" ≠ "a\t-\tb"
    ∧ "a\t-\tb" ∉ print_news_items ["a"] ["b"] := by
  refine ⟨rfl, by decide, by decide⟩

/-- With bs4 truthiness the two filter calls keep every element, so on a
found table `parse_news_data` returns exactly the two lists built by the
pairing loop (for an empty row list both sides are the pair of empty
lists). -/
theorem parse_news_data_some (rows : List Tag) :
    parse_news_data (some rows) = ((pairRows rows).1, (pairRows rows).2) := by
  cases rows with
  | nil => simp [parse_news_data, pairRows]
  | cons a l =>
      have h1 : ∀ x ∈ (pairRows (a :: l)).1, Tag.truthy x = true := fun x _ => rfl
      have h2 : ∀ x ∈ (pairRows (a :: l)).2, Tag.truthy x = true := fun x _ => rfl
      simp [parse_news_data, List.filter_eq_self.mpr h1, List.filter_eq_self.mpr h2]

/-- The emitted records are exactly the zip of the two loop-built lists. -/
theorem parse_records_eq (rows : List Tag) :
    newsRecords (some rows) = (pairRows rows).1.zip (pairRows rows).2 := by
  simp [newsRecords, parse_news_data_some]

/-- Indexing three cons cells away. -/
theorem getElem?_cons_three {α : Type} (a b c : α) (l : List α) (i : Nat) :
    (a :: b :: c :: l)[i + 3]? = l[i]? := by
  rw [show i + 3 = i + 2 + 1 from rfl, List.getElem?_cons_succ,
    show i + 2 = i + 1 + 1 from rfl, List.getElem?_cons_succ, List.getElem?_cons_succ]

/-- The record at output index j is built from the rows at source
positions 3j and 3j+1. -/
theorem newsRecords_pair : ∀ (rows : List Tag) (j : Nat) (r : Tag × Tag),
    ((pairRows rows).1.zip (pairRows rows).2)[j]? = some r →
    rows[3 * j]? = some r.1 ∧ rows[3 * j + 1]? = some r.2
  | [], j, r => by
      intro hj
      simp [pairRows] at hj
  | [_], j, r => by
      intro hj
      simp [pairRows] at hj
  | [h, m], j, r => by
      intro hj
      match j with
      | 0 =>
          simp [pairRows] at hj
          simp [← hj]
      | j' + 1 =>
          simp [pairRows] at hj
  | h :: m :: s :: rest, j, r => by
      intro hj
      match j with
      | 0 =>
          simp [pairRows] at hj
          simp [← hj]
      | j' + 1 =>
          simp only [pairRows, List.zip_cons_cons, List.getElem?_cons_succ] at hj
          obtain ⟨ih1, ih2⟩ := newsRecords_pair rest j' r hj
          constructor
          · rw [Nat.mul_succ, getElem?_cons_three]
            exact ih1
          · rw [Nat.mul_succ, show 3 * j' + 3 + 1 = 3 * j' + 1 + 3 from rfl,
              getElem?_cons_three]
            exact ih2

/-- The headers of zipped pairs form a sublist of the first list. -/
theorem zip_map_fst_sublist {α β : Type} : ∀ (a : List α) (b : List β),
    List.Sublist ((a.zip b).map Prod.fst) a
  | [], _ => by simp
  | _ :: _, [] => by simp
  | x :: a, _ :: b => by
      simp only [List.zip_cons_cons, List.map_cons]
      exact List.Sublist.cons₂ x (zip_map_fst_sublist a b)

/-- The header list built by the pairing loop is a sublist of the input
row sequence. -/
theorem pairRows_fst_sublist : ∀ rows : List Tag, List.Sublist (pairRows rows).1 rows
  | [] => by simp [pairRows]
  | [_] => by simp [pairRows]
  | [h, m] => by
      simp only [pairRows]
      exact List.Sublist.cons₂ h (List.nil_sublist [m])
  | h :: m :: s :: rest => by
      simp only [pairRows]
      exact List.Sublist.cons₂ h
        (((pairRows_fst_sublist rest).trans (List.sublist_cons_self s rest)).trans
          (List.sublist_cons_self m (s :: rest)))

/-- Componentwise indexing determines the zip entry. -/
theorem zip_getElem?_of {α β : Type} : ∀ (a : List α) (b : List β) (j : Nat) (x : α) (y : β),
    a[j]? = some x → b[j]? = some y → (a.zip b)[j]? = some (x, y)
  | [], _, j, _, _ => by
      intro hx _
      simp at hx
  | _ :: _, [], j, _, _ => by
      intro _ hy
      simp at hy
  | p :: a, q :: b, 0, x, y => by
      intro hx hy
      simp only [List.getElem?_cons_zero, Option.some.injEq] at hx hy
      subst hx
      subst hy
      simp [List.zip_cons_cons]
  | p :: a, q :: b, j + 1, x, y => by
      intro hx hy
      simp only [List.getElem?_cons_succ] at hx hy
      simpa [List.zip_cons_cons, List.getElem?_cons_succ] using
        zip_getElem?_of a b j x y hx hy

/-- C1 counterexample: a header row whose text trims to the empty string
(here a single blank) is not dropped — the record is emitted together
with its meta row and its title is the empty string after trimming,
contradicting the claim that neither row appears in the output. -/
theorem c1_counterexample_blank_title_emitted :
    newsRecords (some [Tag.mk " " none, Tag.mk "42 points by alice" none,
        Tag.mk "spacer" none])
      = [(Tag.mk " " none, Tag.mk "42 points by alice" none)]
    ∧ get_title_from_news_element (Tag.mk " " none) = "" := by
  constructor
  · rfl
  · rfl

/-- C1 (amended): the filter step drops nothing, because a bs4 tag is
always truthy: every (header, meta) pair built by the loop is emitted and
the number of emitted records is (len rows + 1) / 3 independently of any
row text. In particular a header row whose text trims to empty is emitted
together with its paired meta row, consumes an index slot, and yields a
record whose title is empty after trimming. -/
theorem c1_no_pair_dropped (rows : List Tag) :
    newsRecords (some rows) = (pairRows rows).1.zip (pairRows rows).2
    ∧ (newsRecords (some rows)).length = (rows.length + 1) / 3 := by
  refine ⟨parse_records_eq rows, ?_⟩
  rw [parse_records_eq rows, List.length_zip, pairRows_fst_length,
    pairRows_snd_length, Nat.min_self]

/-- C2: every emitted record is built from two adjacent source rows — its
header row sits at a source position p congruent to 0 modulo 3 and its
meta row at source position p + 1. -/
theorem c2_adjacent_positions (rows : List Tag) (j : Nat) (r : Tag × Tag)
    (hr : (newsRecords (some rows))[j]? = some r) :
    ∃ p, p % 3 = 0 ∧ rows[p]? = some r.1 ∧ rows[p + 1]? = some r.2 := by
  rw [parse_records_eq] at hr
  obtain ⟨h1, h2⟩ := newsRecords_pair rows j r hr
  exact ⟨3 * j, by omega, h1, h2⟩

/-- C2 witness: on a concrete six-row input the second emitted record
pairs the rows at source positions 3 and 4. -/
theorem c2_witness :
    ∃ p, p % 3 = 0
      ∧ [Tag.mk "t0" none, Tag.mk "t1" none, Tag.mk "t2" none, Tag.mk "t3" none,
          Tag.mk "t4" none, Tag.mk "t5" none][p]? = some (Tag.mk "t3" none)
      ∧ [Tag.mk "t0" none, Tag.mk "t1" none, Tag.mk "t2" none, Tag.mk "t3" none,
          Tag.mk "t4" none, Tag.mk "t5" none][p + 1]? = some (Tag.mk "t4" none) :=
  c2_adjacent_positions _ 1 (Tag.mk "t3" none, Tag.mk "t4" none) (by rfl)

/-- C3: record counts by input length modulo the period 3 (the trimmed
non-emptiness of the header texts is the hypothesis of the claim; the
counts hold independently of it), together with the pairing of output
index k with source rows 3k and 3k+1; in particular no record is emitted
for an incomplete trailing group. -/
theorem c3_record_counts (rows : List Tag)
    (hheads : ∀ h ∈ (pairRows rows).1, get_title_from_news_element h ≠ "") :
    (rows.length % 3 = 0 → (newsRecords (some rows)).length = rows.length / 3)
    ∧ (rows.length % 3 = 1 → (newsRecords (some rows)).length + 1 = (rows.length + 2) / 3)
    ∧ (rows.length % 3 = 2 → (newsRecords (some rows)).length = (rows.length + 2) / 3)
    ∧ ∀ k rec, (newsRecords (some rows))[k]? = some rec →
        rows[3 * k]? = some rec.1 ∧ rows[3 * k + 1]? = some rec.2 := by
  have hlen : (newsRecords (some rows)).length = (rows.length + 1) / 3 := by
    rw [parse_records_eq, List.length_zip, pairRows_fst_length,
      pairRows_snd_length, Nat.min_self]
  refine ⟨fun h => by omega, fun h => by omega, fun h => by omega, ?_⟩
  intro k rec hk
  rw [parse_records_eq] at hk
  exact newsRecords_pair rows k rec hk

/-- C3 witness: a concrete six-row input with non-empty header texts
yields exactly two records. -/
theorem c3_witness :
    (newsRecords (some [Tag.mk "A" none, Tag.mk "m0" none, Tag.mk "s0" none,
        Tag.mk "B" none, Tag.mk "m1" none, Tag.mk "s1" none])).length = 2 :=
  (c3_record_counts _ (by decide)).1 (by decide)

/-- C8 (amended): the console sink prints the banner and then exactly one
string per zipped record pair, consisting of a leading newline, the
title, tab hyphen tab, the meta, and a trailing newline (not the bare
tab-separated core); the CSV sink writes the column-name row with the two
column names header and meta and then exactly one two-field row per
zipped record pair. -/
theorem c8_sink_shapes (hs ms : List String) :
    (print_news_items hs ms)[0]? = some "Printing news items..."
    ∧ (save_news_to_csv hs ms)[0]? = some ["header", "meta"]
    ∧ (print_news_items hs ms).length = 1 + (hs.zip ms).length
    ∧ (save_news_to_csv hs ms).length = 1 + (hs.zip ms).length
    ∧ ∀ j r, (hs.zip ms)[j]? = some r →
        (print_news_items hs ms)[j + 1]? = some ("\n" ++ r.1 ++ "\t-\t" ++ r.2 ++ "\n")
        ∧ (save_news_to_csv hs ms)[j + 1]? = some [r.1, r.2] := by
  refine ⟨by simp [print_news_items], by simp [save_news_to_csv], ?_, ?_, ?_⟩
  · simp [print_news_items]
    omega
  · simp [save_news_to_csv]
    omega
  · intro j r hj
    constructor
    · simp [print_news_items, List.getElem?_cons_succ, List.getElem?_map, hj]
    · simp [save_news_to_csv, List.getElem?_cons_succ, List.getElem?_map, hj]

/-- C8 witness: the amended statement applied to one concrete record. -/
theorem c8_witness :
    (print_news_items ["a"] ["b"])[0 + 1]? = some "\na\t-\tb\n"
    ∧ (save_news_to_csv ["a"] ["b"])[0 + 1]? = some ["a", "b"] :=
  (c8_sink_shapes ["a"] ["b"]).2.2.2.2 0 ("a", "b") rfl

/-- C9: emitted records keep the source order of their header rows — the
list of record headers is a sublist (an order-preserving selection) of
the input row sequence, so a record whose header row occurs earlier in
the source precedes every record whose header row occurs later. -/
theorem c9_source_order (rows : List Tag) :
    List.Sublist ((newsRecords (some rows)).map Prod.fst) rows := by
  rw [parse_records_eq]
  exact (zip_map_fst_sublist _ _).trans (pairRows_fst_sublist rows)

/-- C10: on header and meta lists of unequal lengths both sinks emit one
entry per position of the shorter list (plus their fixed first row),
silently dropping the tail of the longer list, and they pair the two
lists by position. -/
theorem c10_sinks_truncate_to_min (hs ms : List String) :
    (print_news_items hs ms).length = 1 + min hs.length ms.length
    ∧ (save_news_to_csv hs ms).length = 1 + min hs.length ms.length
    ∧ ∀ j x y, hs[j]? = some x → ms[j]? = some y →
        (print_news_items hs ms)[j + 1]? = some ("\n" ++ x ++ "\t-\t" ++ y ++ "\n")
        ∧ (save_news_to_csv hs ms)[j + 1]? = some [x, y] := by
  refine ⟨?_, ?_, ?_⟩
  · simp [print_news_items, List.length_zip]
    omega
  · simp [save_news_to_csv, List.length_zip]
    omega
  · intro j x y hx hy
    have hz := zip_getElem?_of hs ms j x y hx hy
    constructor
    · simp [print_news_items, List.getElem?_cons_succ, List.getElem?_map, hz]
    · simp [save_news_to_csv, List.getElem?_cons_succ, List.getElem?_map, hz]

/-- C10 witness: with two headers and one meta the console sink emits the
banner plus exactly one record line, pairing the lists by position. -/
theorem c10_witness :
    (print_news_items ["a", "c"] ["b"]).length = 1 + min 2 1
    ∧ (print_news_items ["a", "c"] ["b"])[0 + 1]? = some "\na\t-\tb\n" :=
  ⟨(c10_sinks_truncate_to_min ["a", "c"] ["b"]).1,
    ((c10_sinks_truncate_to_min ["a", "c"] ["b"]).2.2 0 "a" "b" rfl rfl).1⟩
